import Mathlib

/-!
Shallow embedding of `mise-s3-cache` (Rust) for specification checking.

The embedding follows the source files:
  * `src/utils.rs`    — validation predicates, platform/architecture strings;
  * `src/config.rs`   — `Config::get_cache_key`;
  * `src/cache.rs`    — `CacheManager::{check_cache, restore_from_cache,
                         store_in_cache, update_stats, cleanup_old_cache}`;
  * `src/s3_operations.rs` — `S3Client::cleanup_old_objects`.

Effectful operations (S3 calls, filesystem, tokio tasks) are modelled by an
explicit environment record whose fields give the outcome of each fallible
external interaction, and by an effect record collecting the externally
visible actions (S3 queries, uploads, deletes, extraction, statistics
events).  Machine integers are modelled as `Nat`; the one place where u64
wrap-around matters (`cleanup_old_objects`' cutoff subtraction) uses an
explicit wrapping subtraction modulo `2^64`.
-/

namespace MiseS3Cache

/-! ### utils.rs -/

/-- Character class of the regex `[a-zA-Z0-9._-]` used by
`is_valid_tool_name` (utils.rs line 80).  `Char.isAlpha`/`Char.isDigit`
are exactly the ASCII ranges `a-z`, `A-Z`, `0-9`. -/
def toolNameChar (c : Char) : Bool :=
  c.isAlpha || c.isDigit || c == '.' || c == '_' || c == '-'

/-- Character class of the regex `[a-zA-Z0-9.+-]` used by
`is_valid_version` (utils.rs line 91). -/
def versionChar (c : Char) : Bool :=
  c.isAlpha || c.isDigit || c == '.' || c == '+' || c == '-'

/-- `utils::is_valid_tool_name` (utils.rs lines 74-82): reject empty or
longer than 100, then require the regex `^[a-zA-Z0-9._-]+$`.
(Rust `len()` is a byte count and `String.length` a character count; the
two predicates agree on every string because any character outside ASCII
fails the character class.) -/
def is_valid_tool_name (name : String) : Bool :=
  if name.isEmpty || name.length > 100 then false
  else name.data.all toolNameChar

/-- `utils::is_valid_version` (utils.rs lines 85-93): reject empty or longer
than 50, then require the regex `^[a-zA-Z0-9.+-]+$`. -/
def is_valid_version (version : String) : Bool :=
  if version.isEmpty || version.length > 50 then false
  else version.data.all versionChar

/-- Compilation target OS, the compile-time input of `utils::get_platform`
(utils.rs lines 10-20, a `cfg!` cascade). -/
inductive TargetOS
  | linux
  | macos
  | windows
  | otherOS
deriving DecidableEq, Repr

/-- `utils::get_platform` (utils.rs lines 10-20). -/
def get_platform : TargetOS → String
  | .linux => "linux"
  | .macos => "darwin"
  | .windows => "windows"
  | .otherOS => "unknown"

/-- Compilation target architecture, the compile-time input of
`utils::get_architecture` (utils.rs lines 23-33). -/
inductive TargetArch
  | x86_64
  | aarch64
  | arm
  | otherArch
deriving DecidableEq, Repr

/-- `utils::get_architecture` (utils.rs lines 23-33). -/
def get_architecture : TargetArch → String
  | .x86_64 => "x86_64"
  | .aarch64 => "aarch64"
  | .arm => "arm"
  | .otherArch => "unknown"

/-! ### config.rs -/

/-- `Config::get_cache_key` (config.rs lines 220-227):
`format!("{}/tools/{}/{}/{}-{}", pfx, tool, version, platform, arch)` where `pfx` is the configured cache key pfx.
The platform and architecture are fixed at compile time in the Rust source;
here they are passed as the target descriptors so the key derivation can be
studied over all `(tool, version, platform, arch)` tuples. -/
def get_cache_key (pfx tool version : String) (os : TargetOS)
    (arch : TargetArch) : String :=
  pfx ++ "/tools/" ++ tool ++ "/" ++ version ++ "/" ++
    get_platform os ++ "-" ++ get_architecture arch

/-! ### cache.rs: statistics -/

/-- `ToolStats` (cache.rs lines 44-52). -/
structure ToolStats where
  last_used : Nat
  cache_hits : Nat
  cache_misses : Nat
  total_download_time_ms : Nat
  average_download_time_ms : Nat
  size_bytes : Nat
deriving DecidableEq, Repr

/-- `CacheStats` (cache.rs lines 35-42).  The `HashMap<String, ToolStats>`
is modelled as an association list keyed by `tool@version`. -/
structure CacheStats where
  cache_hits : Nat
  cache_misses : Nat
  total_downloads : Nat
  total_savings_bytes : Nat
  tools : List (String × ToolStats)
deriving DecidableEq, Repr

/-- `CacheStats::default()` (derived `Default`, cache.rs line 35). -/
def CacheStats.empty : CacheStats :=
  { cache_hits := 0, cache_misses := 0, total_downloads := 0
    total_savings_bytes := 0, tools := [] }

/-- `HashMap` lookup on the association-list model. -/
def lookupTool : List (String × ToolStats) → String → Option ToolStats
  | [], _ => none
  | (k, v) :: rest, key => if k == key then some v else lookupTool rest key

/-- `HashMap` insert-or-replace on the association-list model. -/
def setTool : List (String × ToolStats) → String → ToolStats →
    List (String × ToolStats)
  | [], key, v => [(key, v)]
  | (k, w) :: rest, key, v =>
      if k == key then (k, v) :: rest else (k, w) :: setTool rest key v

/-- `CacheManager::update_stats` (cache.rs lines 494-535), the pure state
transformation on the loaded `CacheStats` (the surrounding load/save I/O is
modelled at the call sites).  `now` stands for `utils::current_timestamp()`;
the `_status` string argument is unused by the source exactly as here. -/
def update_stats (now : Nat) (stats : CacheStats) (tool version : String)
    (cache_hit : Bool) (download_time_ms : Nat) (status : String) :
    CacheStats :=
  let _ := status
  let stats :=
    { stats with
      cache_hits := if cache_hit then stats.cache_hits + 1 else stats.cache_hits
      cache_misses :=
        if cache_hit then stats.cache_misses else stats.cache_misses + 1
      total_downloads := stats.total_downloads + 1 }
  let tool_key := tool ++ "@" ++ version
  let entry :=
    match lookupTool stats.tools tool_key with
    | some ts => ts
    | none =>
        { last_used := now, cache_hits := 0, cache_misses := 0
          total_download_time_ms := 0, average_download_time_ms := 0
          size_bytes := 0 }
  let entry := { entry with last_used := now }
  let entry :=
    if cache_hit then
      let hits := entry.cache_hits + 1
      let total := entry.total_download_time_ms + download_time_ms
      { entry with
        cache_hits := hits
        total_download_time_ms := total
        average_download_time_ms := total / hits }
    else
      { entry with cache_misses := entry.cache_misses + 1 }
  { stats with tools := setTool stats.tools tool_key entry }

/-! ### cache.rs: restore / check

The S3 and filesystem interactions of `restore_from_cache` are captured by
`RestoreEnv`.  Each field is the outcome of one fallible interaction of the
source, in source order:

  * `metadataExists` — `s3_client.object_exists(&metadata_key)`
    (cache.rs line 96): `none` is a transport error (`Err`), `some b`
    a successful existence answer;
  * `tempDirOk` — `TempDir::new()?` (line 106);
  * `archiveDownload` — `s3_client.download_file(&archive_key, ..)`
    (line 110): `some bytes` means success and the downloaded archive has
    those bytes, `none` any failure (missing object, transport, local I/O);
  * `checksumFetch` — `s3_client.download_string(&checksum_key)`
    (line 125): `some s` success with content `s`, `none` any failure;
  * `hashFileOk` — the file read inside `utils::calculate_file_hash`
    (line 126, propagated with `?`);
  * `hash` — SHA-256 hex digest of a byte sequence, kept abstract: the
    claims depend only on (in)equality of digests;
  * `createDirOk` — `fs::create_dir_all(&install_path).await?` (line 138);
  * `unpackOk` — `self.extract_archive(..)` (line 140);
  * `archiveFileSize` — `fs::metadata(&temp_archive).await?.len()`
    (line 149, only on the successful-extraction path);
  * `statsIoOk` — the load/save file I/O inside `update_stats`
    (lines 502 and 533, propagated with `?` at every call site).
-/

/-- Environment for one `restore_from_cache` / `check_cache` run. -/
structure RestoreEnv where
  metadataExists : Option Bool
  tempDirOk : Bool
  archiveDownload : Option (List Nat)
  checksumFetch : Option String
  hashFileOk : Bool
  hash : List Nat → String
  createDirOk : Bool
  unpackOk : Bool
  archiveFileSize : Option Nat
  statsIoOk : Bool

/-- Externally visible effects of a `restore_from_cache` / `check_cache`
run: whether the metadata-existence S3 query was issued, which statistics
outcomes `(cache_hit, status)` were recorded, and whether the archive was
extracted into the install path. -/
structure RestoreEffects where
  s3Queried : Bool
  statsEvents : List (Bool × String)
  extracted : Bool
deriving DecidableEq, Repr

/-- Effects of a run that stopped before any external interaction. -/
def RestoreEffects.none : RestoreEffects :=
  { s3Queried := false, statsEvents := [], extracted := false }

/-- Rust `str::trim` (used on the fetched checksum at cache.rs line 127):
strip leading and trailing whitespace. -/
def trimChars (s : String) : String :=
  String.mk
    (((s.data.dropWhile Char.isWhitespace).reverse.dropWhile
        Char.isWhitespace).reverse)

/-- `CacheManager::validate_tool_version` (cache.rs lines 289-299), as the
error it returns, if any. -/
def validate_tool_version (tool version : String) : Except String Unit :=
  if !is_valid_tool_name tool then .error ("Invalid tool name: " ++ tool)
  else if !is_valid_version version then .error ("Invalid version: " ++ version)
  else .ok ()

/-- The tail of `restore_from_cache` from cache.rs line 137 on: create the
install path (`?`), extract, and record the outcome. -/
def restoreExtract (env : RestoreEnv) : Except String Bool × RestoreEffects :=
  if !env.createDirOk then
    (.error "create_dir_all failed",
     { s3Queried := true, statsEvents := [], extracted := false })
  else if env.unpackOk then
    match env.archiveFileSize with
    | Option.none =>
        (.error "temp archive metadata failed",
         { s3Queried := true, statsEvents := [], extracted := true })
    | some _ =>
        if env.statsIoOk then
          (.ok true,
           { s3Queried := true, statsEvents := [(true, "success")]
             extracted := true })
        else
          (.error "stats file I/O failed",
           { s3Queried := true, statsEvents := [], extracted := true })
  else
    if env.statsIoOk then
      (.ok false,
       { s3Queried := true, statsEvents := [(false, "extraction_failed")]
         extracted := false })
    else
      (.error "stats file I/O failed",
       { s3Queried := true, statsEvents := [], extracted := false })

/-- `CacheManager::restore_from_cache` (cache.rs lines 81-162).  Returns the
`Result<bool>` together with the run's externally visible effects. -/
def restore_from_cache (env : RestoreEnv) (tool version install_path : String) :
    Except String Bool × RestoreEffects :=
  let _ := install_path
  match validate_tool_version tool version with
  | .error e => (.error e, RestoreEffects.none)
  | .ok () =>
    match env.metadataExists with
    | Option.none =>
        (.error "S3 error",
         { s3Queried := true, statsEvents := [], extracted := false })
    | some false =>
        if env.statsIoOk then
          (.ok false,
           { s3Queried := true, statsEvents := [(false, "not_found")]
             extracted := false })
        else
          (.error "stats file I/O failed",
           { s3Queried := true, statsEvents := [], extracted := false })
    | some true =>
        if !env.tempDirOk then
          (.error "temp dir creation failed",
           { s3Queried := true, statsEvents := [], extracted := false })
        else
          match env.archiveDownload with
          | Option.none =>
              if env.statsIoOk then
                (.ok false,
                 { s3Queried := true
                   statsEvents := [(false, "download_failed")]
                   extracted := false })
              else
                (.error "stats file I/O failed",
                 { s3Queried := true, statsEvents := [], extracted := false })
          | some bytes =>
              match env.checksumFetch with
              | some expected =>
                  if !env.hashFileOk then
                    (.error "reading temp archive failed",
                     { s3Queried := true, statsEvents := []
                       extracted := false })
                  else if trimChars expected != env.hash bytes then
                    if env.statsIoOk then
                      (.ok false,
                       { s3Queried := true
                         statsEvents := [(false, "checksum_mismatch")]
                         extracted := false })
                    else
                      (.error "stats file I/O failed",
                       { s3Queried := true, statsEvents := []
                         extracted := false })
                  else restoreExtract env
              | Option.none => restoreExtract env

/-- `CacheManager::check_cache` (cache.rs lines 72-79): validate, then
return the metadata-existence answer. -/
def check_cache (env : RestoreEnv) (tool version : String) :
    Except String Bool × RestoreEffects :=
  match validate_tool_version tool version with
  | .error e => (.error e, RestoreEffects.none)
  | .ok () =>
    match env.metadataExists with
    | Option.none =>
        (.error "S3 error",
         { s3Queried := true, statsEvents := [], extracted := false })
    | some b =>
        (.ok b,
         { s3Queried := true, statsEvents := [], extracted := false })

/-! ### cache.rs: store -/

/-- Environment for one `store_in_cache` run, one field per fallible
interaction of cache.rs lines 164-233, in source order:

  * `installPathExists` — `install_path.exists()` (line 173);
  * `toolInProject` — `tool_detector.is_tool_in_project(tool, version)`
    (line 181): `none` a detector error (`?`), `some b` its answer;
  * `tempDirOk` — `TempDir::new()?` (line 191);
  * `archiveCreate` — `create_archive` (line 195): `some bytes` success
    producing an archive with those bytes, `none` failure;
  * `hashFileOk` — `utils::calculate_file_hash(&temp_archive)?` (line 199);
  * `hash` — SHA-256 hex digest, abstract as in `RestoreEnv`;
  * `uploadArchiveOk`, `uploadMetadataOk`, `uploadChecksumOk` — the three
    uploads fired together by `tokio::try_join!` (lines 222-226). -/
structure StoreEnv where
  installPathExists : Bool
  toolInProject : Option Bool
  tempDirOk : Bool
  archiveCreate : Option (List Nat)
  hashFileOk : Bool
  hash : List Nat → String
  uploadArchiveOk : Bool
  uploadMetadataOk : Bool
  uploadChecksumOk : Bool

/-- Externally visible effects of a `store_in_cache` run: whether the
project manifest was consulted, whether an archive was packed, which S3
object uploads were started, and which S3 deletes were issued (the source
never issues any; the field exists because other operations, such as
cleanup, do delete). -/
structure StoreEffects where
  manifestConsulted : Bool
  archivePacked : Bool
  uploadsStarted : List String
  deletes : List String
deriving DecidableEq, Repr

/-- Effects of a store run that performed nothing. -/
def StoreEffects.none : StoreEffects :=
  { manifestConsulted := false, archivePacked := false
    uploadsStarted := [], deletes := [] }

/-- `CacheManager::store_in_cache` (cache.rs lines 164-233).  `tokio::try_join!`
starts all three uploads together and completes when all succeed or any
fails; sequentially that is: all three appear in `uploadsStarted`, and the
result is `Ok` exactly when all three succeed.  No rollback: `deletes` is
empty on every path. -/
def store_in_cache (env : StoreEnv) (pfx tool version install_path : String)
    (os : TargetOS) (arch : TargetArch) : Except String Unit × StoreEffects :=
  match validate_tool_version tool version with
  | .error e => (.error e, StoreEffects.none)
  | .ok () =>
    if !env.installPathExists then
      (.error ("Install path does not exist: " ++ install_path),
       StoreEffects.none)
    else
      match env.toolInProject with
      | Option.none =>
          (.error "tool detection failed",
           { StoreEffects.none with manifestConsulted := true })
      | some false =>
          (.ok (), { StoreEffects.none with manifestConsulted := true })
      | some true =>
          if !env.tempDirOk then
            (.error "temp dir creation failed",
             { StoreEffects.none with manifestConsulted := true })
          else
            match env.archiveCreate with
            | Option.none =>
                (.error "archive creation failed",
                 { StoreEffects.none with manifestConsulted := true })
            | some _bytes =>
                if !env.hashFileOk then
                  (.error "reading temp archive failed",
                   { manifestConsulted := true, archivePacked := true
                     uploadsStarted := [], deletes := [] })
                else
                  let key := get_cache_key pfx tool version os arch
                  let started := [key ++ "/archive.tar.gz",
                                  key ++ "/metadata.json",
                                  key ++ "/checksum.sha256"]
                  if env.uploadArchiveOk && env.uploadMetadataOk &&
                      env.uploadChecksumOk then
                    (.ok (),
                     { manifestConsulted := true, archivePacked := true
                       uploadsStarted := started, deletes := [] })
                  else
                    (.error "upload failed",
                     { manifestConsulted := true, archivePacked := true
                       uploadsStarted := started, deletes := [] })

/-! ### s3_operations.rs: cleanup -/

/-- Wrapping u64 subtraction: Rust release-mode `a - b` on `u64`.
(Under debug overflow checks the same inputs panic instead; either way no
well-defined non-negative cutoff exists when `b > a`.) -/
def u64_wrapping_sub (a b : Nat) : Nat :=
  (a % 2 ^ 64 + (2 ^ 64 - b % 2 ^ 64)) % 2 ^ 64

/-- `S3Client::cleanup_old_objects` (s3_operations.rs lines 318-372):
computes `cutoff_time = now - max_age_seconds` (u64 arithmetic), then for
every listed object under the prefix whose `last_modified` is strictly
below the cutoff attempts a delete; keys whose delete succeeds are
returned, individual delete failures are logged and skipped.  `objects` is
the listing `(key, last_modified_seconds)` and `deleteOk` the outcome of
each individual delete. -/
def cleanup_old_objects (now max_age_seconds : Nat)
    (objects : List (String × Nat)) (deleteOk : String → Bool) :
    List String :=
  let cutoff := u64_wrapping_sub now max_age_seconds
  (objects.filter (fun o => decide (o.2 < cutoff) && deleteOk o.1)).map
    Prod.fst

/-- `CacheManager::cleanup_old_cache` (cache.rs lines 473-492):
`max_age_seconds = days_old as u64 * 24 * 60 * 60` (no overflow for
`days_old < 2^32`), prefix `"{pfx}/tools"`. -/
def cleanup_old_cache (now : Nat) (days_old : Nat)
    (objects : List (String × Nat)) (deleteOk : String → Bool) :
    List String :=
  cleanup_old_objects now (days_old * 24 * 60 * 60) objects deleteOk

/-- Replaying a sequence of recorded outcomes
`(now, tool, version, cache_hit, download_time_ms, status)` through
`update_stats`. -/
def record_outcomes (stats : CacheStats) :
    List (Nat × String × String × Bool × Nat × String) → CacheStats
  | [] => stats
  | (now, tool, version, hit, d, st) :: rest =>
      record_outcomes (update_stats now stats tool version hit d st) rest

/-- Fresh per-tool entry created by `update_stats` on first use
(cache.rs lines 513-520). -/
def freshToolStats (now : Nat) : ToolStats :=
  { last_used := now, cache_hits := 0, cache_misses := 0
    total_download_time_ms := 0, average_download_time_ms := 0
    size_bytes := 0 }

/-! ### Proofs -/

theorem lookupTool_setTool (l : List (String × ToolStats)) (key : String)
    (v : ToolStats) : lookupTool (setTool l key v) key = some v := by
  induction l with
  | nil => simp [setTool, lookupTool]
  | cons p rest ih =>
      obtain ⟨k, w⟩ := p
      by_cases h : k == key
      · simp [setTool, lookupTool, h]
      · simp [setTool, lookupTool, h, ih]

/-- C8: each recorded outcome increments `total_downloads` by one and
exactly one of the global hit/miss counters; the `tool@version` entry is
created on first use; on a hit the per-tool average is recomputed as
`total_download_time_ms / cache_hits` while a miss leaves the timing
fields unchanged; and, starting from empty statistics, one hit then one
miss for `node@18.17.0` yields global `cache_hits = 1`, `cache_misses = 1`,
`total_downloads = 2` and a per-tool entry with one hit and one miss. -/
theorem update_stats_spec (now : Nat) (stats : CacheStats)
    (tool version st : String) (hit : Bool) (d : Nat) :
    ((update_stats now stats tool version hit d st).total_downloads =
        stats.total_downloads + 1) ∧
    ((update_stats now stats tool version hit d st).cache_hits =
        if hit then stats.cache_hits + 1 else stats.cache_hits) ∧
    ((update_stats now stats tool version hit d st).cache_misses =
        if hit then stats.cache_misses else stats.cache_misses + 1) ∧
    (lookupTool (update_stats now stats tool version hit d st).tools
        (tool ++ "@" ++ version) =
      some
        (let e0 := (lookupTool stats.tools (tool ++ "@" ++ version)).getD
          (freshToolStats now)
         if hit then
           { e0 with
             last_used := now
             cache_hits := e0.cache_hits + 1
             total_download_time_ms := e0.total_download_time_ms + d
             average_download_time_ms :=
               (e0.total_download_time_ms + d) / (e0.cache_hits + 1) }
         else
           { e0 with
             last_used := now
             cache_misses := e0.cache_misses + 1 })) ∧
    ((record_outcomes CacheStats.empty
        [(100, "node", "18.17.0", true, 1200, "success"),
         (200, "node", "18.17.0", false, 0, "not_found")]) =
      { cache_hits := 1, cache_misses := 1, total_downloads := 2
        total_savings_bytes := 0
        tools := [("node@18.17.0",
          { last_used := 200, cache_hits := 1, cache_misses := 1
            total_download_time_ms := 1200, average_download_time_ms := 1200
            size_bytes := 0 })] }) := by
  refine ⟨rfl, rfl, rfl, ?_, by decide⟩
  cases hfound : lookupTool stats.tools (tool ++ "@" ++ version) with
  | none =>
      cases hit <;>
        simp [update_stats, hfound, lookupTool_setTool, freshToolStats]
  | some e =>
      cases hit <;>
        simp [update_stats, hfound, lookupTool_setTool, freshToolStats]

/-- C9: no operation accumulates `total_savings_bytes`: a single
`update_stats` leaves it unchanged, hence so does any replayed sequence of
outcomes, and statistics created empty always report it as zero. -/
theorem total_savings_bytes_frame :
    (∀ (now : Nat) (stats : CacheStats) (tool version st : String)
        (hit : Bool) (d : Nat),
      (update_stats now stats tool version hit d st).total_savings_bytes =
        stats.total_savings_bytes) ∧
    (∀ (evs : List (Nat × String × String × Bool × Nat × String))
        (stats : CacheStats),
      (record_outcomes stats evs).total_savings_bytes =
        stats.total_savings_bytes) ∧
    (∀ evs, (record_outcomes CacheStats.empty evs).total_savings_bytes = 0) :=
  by
  have h1 : ∀ (now : Nat) (stats : CacheStats) (tool version st : String)
      (hit : Bool) (d : Nat),
      (update_stats now stats tool version hit d st).total_savings_bytes =
        stats.total_savings_bytes := fun _ _ _ _ _ _ _ => rfl
  have h2 : ∀ (evs : List (Nat × String × String × Bool × Nat × String))
      (stats : CacheStats),
      (record_outcomes stats evs).total_savings_bytes =
        stats.total_savings_bytes := by
    intro evs
    induction evs with
    | nil => intro stats; rfl
    | cons e rest ih =>
        intro stats
        obtain ⟨now, tool, version, hit, d, st⟩ := e
        rw [record_outcomes, ih, h1]
  exact ⟨h1, h2, fun evs => h2 evs CacheStats.empty⟩

/-- C5: `is_valid_tool_name` accepts exactly the non-empty strings of
length at most 100 whose characters lie in `[A-Za-z0-9._-]` (rejecting
`""`, a 101-character string and `"tool/name"`, accepting
`"terraform-1.5"`); `is_valid_version` accepts exactly the non-empty
strings of length at most 50 with characters in `[A-Za-z0-9.+-]`
(rejecting `""` and a 51-character string, accepting `"1.5.0-beta.1"`);
and every public cache operation — check, restore, store — fails on a
violation with no S3 interaction, no statistics event, no extraction, no
archive packed, no upload and no delete. -/
theorem validation_spec :
    (∀ name : String, is_valid_tool_name name = true ↔
      (name ≠ "" ∧ name.length ≤ 100 ∧
        ∀ c ∈ name.data,
          (c.isAlpha ∨ c.isDigit ∨ c = '.' ∨ c = '_' ∨ c = '-'))) ∧
    (∀ version : String, is_valid_version version = true ↔
      (version ≠ "" ∧ version.length ≤ 50 ∧
        ∀ c ∈ version.data,
          (c.isAlpha ∨ c.isDigit ∨ c = '.' ∨ c = '+' ∨ c = '-'))) ∧
    (is_valid_tool_name "" = false ∧
      is_valid_tool_name (String.mk (List.replicate 101 'a')) = false ∧
      is_valid_tool_name "tool/name" = false ∧
      is_valid_tool_name "terraform-1.5" = true ∧
      is_valid_version "" = false ∧
      is_valid_version (String.mk (List.replicate 51 '1')) = false ∧
      is_valid_version "1.5.0-beta.1" = true) ∧
    (∀ (tool version : String),
      (is_valid_tool_name tool = false ∨ is_valid_version version = false) →
      ∀ (env : RestoreEnv) (senv : StoreEnv)
        (pfx install_path : String) (os : TargetOS) (arch : TargetArch),
        (∃ e, check_cache env tool version = (.error e, RestoreEffects.none)) ∧
        (∃ e, restore_from_cache env tool version install_path =
          (.error e, RestoreEffects.none)) ∧
        (∃ e, store_in_cache senv pfx tool version install_path os arch =
          (.error e, StoreEffects.none))) := by
  refine ⟨?_, ?_, ?_, ?_⟩
  · intro name
    simp only [is_valid_tool_name]
    constructor
    · intro h
      by_cases hguard : name.isEmpty || name.length > 100
      · rw [if_pos hguard] at h; exact absurd h (by simp)
      · rw [if_neg hguard] at h
        simp only [Bool.or_eq_true, not_or, decide_eq_true_eq] at hguard
        push_neg at hguard
        refine ⟨by simpa [String.isEmpty_iff] using hguard.1,
          by omega, ?_⟩
        intro c hc
        have := (List.all_eq_true.mp h) c hc
        simpa [toolNameChar, or_assoc] using this
    · rintro ⟨hne, hlen, hchars⟩
      rw [if_neg (by simp [String.isEmpty_iff, hne]; omega)]
      refine List.all_eq_true.mpr fun c hc => ?_
      simpa [toolNameChar, or_assoc] using hchars c hc
  · intro version
    simp only [is_valid_version]
    constructor
    · intro h
      by_cases hguard : version.isEmpty || version.length > 50
      · rw [if_pos hguard] at h; exact absurd h (by simp)
      · rw [if_neg hguard] at h
        simp only [Bool.or_eq_true, not_or, decide_eq_true_eq] at hguard
        push_neg at hguard
        refine ⟨by simpa [String.isEmpty_iff] using hguard.1,
          by omega, ?_⟩
        intro c hc
        have := (List.all_eq_true.mp h) c hc
        simpa [versionChar, or_assoc] using this
    · rintro ⟨hne, hlen, hchars⟩
      rw [if_neg (by simp [String.isEmpty_iff, hne]; omega)]
      refine List.all_eq_true.mpr fun c hc => ?_
      simpa [versionChar, or_assoc] using hchars c hc
  · refine ⟨by decide, by decide, by decide, by decide, by decide,
      by decide, by decide⟩
  · intro tool version hbad env senv pfx install_path os arch
    have hvalid : ∃ e, validate_tool_version tool version = .error e := by
      rcases hbad with h | h
      · exact ⟨"Invalid tool name: " ++ tool, by
          simp [validate_tool_version, h]⟩
      · by_cases ht : is_valid_tool_name tool
        · exact ⟨"Invalid version: " ++ version, by
            simp [validate_tool_version, ht, h]⟩
        · exact ⟨"Invalid tool name: " ++ tool, by
            simp [validate_tool_version, ht]⟩
    obtain ⟨e, he⟩ := hvalid
    refine ⟨⟨e, ?_⟩, ⟨e, ?_⟩, ⟨e, ?_⟩⟩
    · simp [check_cache, he]
    · simp [restore_from_cache, he]
    · simp [store_in_cache, he]

/-- Concrete witness for `validation_spec`: the slash-containing tool name
`"tool/name"` makes every public operation fail with empty effects. -/
theorem validation_spec_witness :
    (is_valid_tool_name "tool/name" = false ∨
      is_valid_version "1.0" = false) ∧
    (∃ e, check_cache
      { metadataExists := some true, tempDirOk := true
        archiveDownload := Option.none, checksumFetch := Option.none
        hashFileOk := true, hash := fun _ => "", createDirOk := true
        unpackOk := true, archiveFileSize := some 0, statsIoOk := true }
      "tool/name" "1.0" = (.error e, RestoreEffects.none)) := by
  have h := validation_spec.2.2.2 "tool/name" "1.0" (Or.inl (by decide))
    { metadataExists := some true, tempDirOk := true
      archiveDownload := Option.none, checksumFetch := Option.none
      hashFileOk := true, hash := fun _ => "", createDirOk := true
      unpackOk := true, archiveFileSize := some 0, statsIoOk := true }
    { installPathExists := true, toolInProject := some true
      tempDirOk := true, archiveCreate := some [], hashFileOk := true
      hash := fun _ => "", uploadArchiveOk := true
      uploadMetadataOk := true, uploadChecksumOk := true }
    "mise-cache" "/tmp/x" TargetOS.linux TargetArch.x86_64
  exact ⟨Or.inl (by decide), h.1⟩

/-- C1: with the local filesystem behaving (temp dir, hashing, directory
creation, temp-file metadata and statistics I/O all succeed), a plain cache
miss never raises: absent metadata gives a recorded `not_found` miss and
`Ok(false)`, a failed archive download gives a recorded `download_failed`
miss and `Ok(false)`, and an error is returned only when the
metadata-existence check itself fails in transport (invalid input being
rejected before it, per `validation_spec`). -/
theorem restore_miss_no_error (tool version install_path : String)
    (meta : Option Bool) (dl : Option (List Nat)) (ck : Option String)
    (hashf : List Nat → String) (up : Bool) (sz : Nat)
    (hok : validate_tool_version tool version = .ok ()) :
    (meta = some false →
      restore_from_cache
        { metadataExists := meta, tempDirOk := true, archiveDownload := dl
          checksumFetch := ck, hashFileOk := true, hash := hashf
          createDirOk := true, unpackOk := up, archiveFileSize := some sz
          statsIoOk := true } tool version install_path =
        (.ok false,
         { s3Queried := true, statsEvents := [(false, "not_found")]
           extracted := false })) ∧
    (meta = some true → dl = Option.none →
      restore_from_cache
        { metadataExists := meta, tempDirOk := true, archiveDownload := dl
          checksumFetch := ck, hashFileOk := true, hash := hashf
          createDirOk := true, unpackOk := up, archiveFileSize := some sz
          statsIoOk := true } tool version install_path =
        (.ok false,
         { s3Queried := true, statsEvents := [(false, "download_failed")]
           extracted := false })) ∧
    (∀ e, (restore_from_cache
        { metadataExists := meta, tempDirOk := true, archiveDownload := dl
          checksumFetch := ck, hashFileOk := true, hash := hashf
          createDirOk := true, unpackOk := up, archiveFileSize := some sz
          statsIoOk := true } tool version install_path).1 = .error e →
      meta = Option.none) := by
  refine ⟨?_, ?_, ?_⟩
  · rintro rfl
    simp [restore_from_cache, hok]
  · rintro rfl rfl
    simp [restore_from_cache, hok]
  · intro e he
    cases meta with
    | none => rfl
    | some b =>
        exfalso
        cases b with
        | false => simp [restore_from_cache, hok] at he
        | true =>
            cases dl with
            | none => simp [restore_from_cache, hok] at he
            | some bytes =>
                cases ck with
                | none =>
                    cases up <;>
                      simp [restore_from_cache, hok, restoreExtract] at he
                | some expected =>
                    by_cases hm : trimChars expected = hashf bytes
                    · cases up <;>
                        simp [restore_from_cache, hok, restoreExtract, hm]
                          at he
                    · simp [restore_from_cache, hok, hm] at he

/-- Concrete witness for `restore_miss_no_error`: a metadata-absent miss
for `node@18.17.0` returns `Ok(false)` with a recorded `not_found` miss. -/
theorem restore_miss_no_error_witness :
    restore_from_cache
      { metadataExists := some false, tempDirOk := true
        archiveDownload := Option.none, checksumFetch := Option.none
        hashFileOk := true, hash := fun _ => "", createDirOk := true
        unpackOk := true, archiveFileSize := some 0, statsIoOk := true }
      "node" "18.17.0" "/tmp/install" =
      (.ok false,
       { s3Queried := true, statsEvents := [(false, "not_found")]
         extracted := false }) :=
  (restore_miss_no_error "node" "18.17.0" "/tmp/install" (some false)
    Option.none Option.none (fun _ => "") true 0 rfl).1 rfl

/-- C2: integrity verification happens exactly when the checksum object is
retrievable.  A retrievable checksum that differs from the digest of the
downloaded archive gives a recorded `checksum_mismatch` miss, `Ok(false)`
and no extraction; an unretrievable checksum is tolerated and extraction
proceeds; and an entry stored with checksum `hash b` whose archive bytes
were corrupted to `b'` (digests differing, digests being
whitespace-trim-invariant hex strings) restores to `Ok(false)` with no
extraction side effect. -/
theorem restore_checksum_verification (tool version install_path : String)
    (bytes : List Nat) (ck : Option String) (hashf : List Nat → String)
    (sz : Nat) (hok : validate_tool_version tool version = .ok ()) :
    (∀ expected, ck = some expected → trimChars expected ≠ hashf bytes →
      restore_from_cache
        { metadataExists := some true, tempDirOk := true
          archiveDownload := some bytes, checksumFetch := ck
          hashFileOk := true, hash := hashf, createDirOk := true
          unpackOk := true, archiveFileSize := some sz, statsIoOk := true }
        tool version install_path =
        (.ok false,
         { s3Queried := true, statsEvents := [(false, "checksum_mismatch")]
           extracted := false })) ∧
    (ck = Option.none →
      restore_from_cache
        { metadataExists := some true, tempDirOk := true
          archiveDownload := some bytes, checksumFetch := ck
          hashFileOk := true, hash := hashf, createDirOk := true
          unpackOk := true, archiveFileSize := some sz, statsIoOk := true }
        tool version install_path =
        (.ok true,
         { s3Queried := true, statsEvents := [(true, "success")]
           extracted := true })) ∧
    (∀ original : List Nat, trimChars (hashf original) = hashf original →
      hashf original ≠ hashf bytes →
      restore_from_cache
        { metadataExists := some true, tempDirOk := true
          archiveDownload := some bytes
          checksumFetch := some (hashf original)
          hashFileOk := true, hash := hashf, createDirOk := true
          unpackOk := true, archiveFileSize := some sz, statsIoOk := true }
        tool version install_path =
        (.ok false,
         { s3Queried := true, statsEvents := [(false, "checksum_mismatch")]
           extracted := false })) := by
  refine ⟨?_, ?_, ?_⟩
  · rintro expected rfl hne
    simp [restore_from_cache, hok, hne]
  · rintro rfl
    simp [restore_from_cache, hok, restoreExtract]
  · intro original htrim hne
    simp [restore_from_cache, hok, htrim, hne]

/-- Concrete witness for `restore_checksum_verification`: a stored checksum
`"aa"` against an archive hashing to `"bb"` restores to `Ok(false)` with a
`checksum_mismatch` miss and no extraction. -/
theorem restore_checksum_verification_witness :
    restore_from_cache
      { metadataExists := some true, tempDirOk := true
        archiveDownload := some [0], checksumFetch := some "aa"
        hashFileOk := true
        hash := fun b => if b == [0] then "bb" else "aa"
        createDirOk := true, unpackOk := true, archiveFileSize := some 7
        statsIoOk := true }
      "node" "18.17.0" "/tmp/install" =
      (.ok false,
       { s3Queried := true, statsEvents := [(false, "checksum_mismatch")]
         extracted := false }) :=
  (restore_checksum_verification "node" "18.17.0" "/tmp/install" [0]
    (some "aa") (fun b => if b == [0] then "bb" else "aa") 7
    rfl).1 "aa" rfl (by decide)

/-- C7 counterexample: when creating the install path fails (everything
else, including the downloaded archive, in order), `restore_from_cache`
returns an error and records no miss — it does not return `Ok(false)` with
an `extraction_failed` miss as the claim states for install-path-creation
failures. -/
theorem restore_createdir_failure_raises :
    restore_from_cache
      { metadataExists := some true, tempDirOk := true
        archiveDownload := some [0], checksumFetch := Option.none
        hashFileOk := true, hash := fun _ => "", createDirOk := false
        unpackOk := true, archiveFileSize := some 0, statsIoOk := true }
      "node" "18.17.0" "/tmp/install" =
      (.error "create_dir_all failed",
       { s3Queried := true, statsEvents := [], extracted := false }) := rfl

/-- C7 (amended): an unpacking failure is treated as failure-to-restore —
a recorded `extraction_failed` miss and `Ok(false)` — while a failure to
create the install path (including parents) is propagated as an error, not
recorded as a miss. -/
theorem restore_extraction_failure_behavior
    (tool version install_path : String) (bytes : List Nat)
    (hashf : List Nat → String) (sz : Nat)
    (hok : validate_tool_version tool version = .ok ()) :
    (restore_from_cache
      { metadataExists := some true, tempDirOk := true
        archiveDownload := some bytes, checksumFetch := Option.none
        hashFileOk := true, hash := hashf, createDirOk := true
        unpackOk := false, archiveFileSize := some sz, statsIoOk := true }
      tool version install_path =
      (.ok false,
       { s3Queried := true, statsEvents := [(false, "extraction_failed")]
         extracted := false })) ∧
    (restore_from_cache
      { metadataExists := some true, tempDirOk := true
        archiveDownload := some bytes, checksumFetch := Option.none
        hashFileOk := true, hash := hashf, createDirOk := false
        unpackOk := false, archiveFileSize := some sz, statsIoOk := true }
      tool version install_path =
      (.error "create_dir_all failed",
       { s3Queried := true, statsEvents := [], extracted := false })) := by
  constructor
  · simp [restore_from_cache, hok, restoreExtract]
  · simp [restore_from_cache, hok, restoreExtract]

/-- Concrete witness for `restore_extraction_failure_behavior` at
`node@18.17.0`. -/
theorem restore_extraction_failure_behavior_witness :
    restore_from_cache
      { metadataExists := some true, tempDirOk := true
        archiveDownload := some [0], checksumFetch := Option.none
        hashFileOk := true, hash := fun _ => "", createDirOk := true
        unpackOk := false, archiveFileSize := some 0, statsIoOk := true }
      "node" "18.17.0" "/tmp/install" =
      (.ok false,
       { s3Queried := true, statsEvents := [(false, "extraction_failed")]
         extracted := false }) :=
  (restore_extraction_failure_behavior "node" "18.17.0" "/tmp/install" [0]
    (fun _ => "") 0 rfl).1

/-- C3: after validation, an existing install path, a declared tool and a
successful archive pack, `store_in_cache` starts all three uploads
(archive, metadata, checksum, at their three keys), succeeds exactly when
all three uploads succeed, and — on every path of every run — never issues
a delete of any object. -/
theorem store_uploads_no_rollback (pfx tool version install_path : String)
    (os : TargetOS) (arch : TargetArch) (bytes : List Nat)
    (hashf : List Nat → String) (u1 u2 u3 : Bool)
    (hok : validate_tool_version tool version = .ok ()) :
    ((store_in_cache
        { installPathExists := true, toolInProject := some true
          tempDirOk := true, archiveCreate := some bytes
          hashFileOk := true, hash := hashf, uploadArchiveOk := u1
          uploadMetadataOk := u2, uploadChecksumOk := u3 }
        pfx tool version install_path os arch).2.uploadsStarted =
      [get_cache_key pfx tool version os arch ++ "/archive.tar.gz",
       get_cache_key pfx tool version os arch ++ "/metadata.json",
       get_cache_key pfx tool version os arch ++ "/checksum.sha256"]) ∧
    ((store_in_cache
        { installPathExists := true, toolInProject := some true
          tempDirOk := true, archiveCreate := some bytes
          hashFileOk := true, hash := hashf, uploadArchiveOk := u1
          uploadMetadataOk := u2, uploadChecksumOk := u3 }
        pfx tool version install_path os arch).1 = .ok () ↔
      (u1 = true ∧ u2 = true ∧ u3 = true)) ∧
    (∀ (senv : StoreEnv) (pfx' tool' version' path' : String)
        (os' : TargetOS) (arch' : TargetArch),
      (store_in_cache senv pfx' tool' version' path' os' arch').2.deletes =
        []) := by
  refine ⟨?_, ?_, ?_⟩
  · cases u1 <;> cases u2 <;> cases u3 <;> simp [store_in_cache, hok]
  · cases u1 <;> cases u2 <;> cases u3 <;> simp [store_in_cache, hok]
  · intro senv pfx' tool' version' path' os' arch'
    unfold store_in_cache
    cases hv : validate_tool_version tool' version' with
    | error e => rfl
    | ok u =>
        cases u
        by_cases hip : senv.installPathExists
        · simp only [hip]
          cases htp : senv.toolInProject with
          | none => rfl
          | some b =>
              cases b
              · rfl
              · by_cases htd : senv.tempDirOk
                · simp only [htd]
                  cases hac : senv.archiveCreate with
                  | none => rfl
                  | some bs =>
                      by_cases hh : senv.hashFileOk
                      · simp only [hh]
                        cases h1 : senv.uploadArchiveOk <;>
                          cases h2 : senv.uploadMetadataOk <;>
                          cases h3 : senv.uploadChecksumOk <;> simp
                      · simp only [hh]; rfl
                · simp only [htd]; rfl
        · simp only [hip]; rfl

/-- Concrete witness for `store_uploads_no_rollback`: with the metadata
upload failing, storing `node@18.17.0` returns an error, yet no delete of
the already-uploaded siblings is issued. -/
theorem store_uploads_no_rollback_witness :
    ((store_in_cache
        { installPathExists := true, toolInProject := some true
          tempDirOk := true, archiveCreate := some [0]
          hashFileOk := true, hash := fun _ => "", uploadArchiveOk := true
          uploadMetadataOk := false, uploadChecksumOk := true }
        "mise-cache" "node" "18.17.0" "/tmp/install"
        TargetOS.linux TargetArch.x86_64).1 = .ok () ↔
      (true = true ∧ false = true ∧ true = true)) ∧
    (store_in_cache
        { installPathExists := true, toolInProject := some true
          tempDirOk := true, archiveCreate := some [0]
          hashFileOk := true, hash := fun _ => "", uploadArchiveOk := true
          uploadMetadataOk := false, uploadChecksumOk := true }
        "mise-cache" "node" "18.17.0" "/tmp/install"
        TargetOS.linux TargetArch.x86_64).2.deletes = [] := by
  have h := store_uploads_no_rollback "mise-cache" "node" "18.17.0"
    "/tmp/install" TargetOS.linux TargetArch.x86_64 [0] (fun _ => "")
    true false true rfl
  exact ⟨h.2.1,
    h.2.2 { installPathExists := true, toolInProject := some true
            tempDirOk := true, archiveCreate := some [0]
            hashFileOk := true, hash := fun _ => ""
            uploadArchiveOk := true, uploadMetadataOk := false
            uploadChecksumOk := true }
      "mise-cache" "node" "18.17.0" "/tmp/install"
      TargetOS.linux TargetArch.x86_64⟩

/-- C6: for a valid tool and version with an existing install path, when
the tool-manifest collaborator reports the pair as not declared by the
project, `store_in_cache` returns `Ok` having consulted the manifest but
packed no archive, started no upload and issued no delete — the remote
store is untouched. -/
theorem store_skips_undeclared_tool (pfx tool version install_path : String)
    (os : TargetOS) (arch : TargetArch) (senv : StoreEnv)
    (hok : validate_tool_version tool version = .ok ())
    (hip : senv.installPathExists = true)
    (hproj : senv.toolInProject = some false) :
    store_in_cache senv pfx tool version install_path os arch =
      (.ok (),
       { manifestConsulted := true, archivePacked := false
         uploadsStarted := [], deletes := [] }) := by
  simp [store_in_cache, hok, hip, hproj, StoreEffects.none]

/-- Concrete witness for `store_skips_undeclared_tool` at `node@18.17.0`. -/
theorem store_skips_undeclared_tool_witness :
    store_in_cache
      { installPathExists := true, toolInProject := some false
        tempDirOk := true, archiveCreate := some [0], hashFileOk := true
        hash := fun _ => "", uploadArchiveOk := true
        uploadMetadataOk := true, uploadChecksumOk := true }
      "mise-cache" "node" "18.17.0" "/tmp/install"
      TargetOS.linux TargetArch.x86_64 =
      (.ok (),
       { manifestConsulted := true, archivePacked := false
         uploadsStarted := [], deletes := [] }) :=
  store_skips_undeclared_tool "mise-cache" "node" "18.17.0" "/tmp/install"
    TargetOS.linux TargetArch.x86_64
    { installPathExists := true, toolInProject := some false
      tempDirOk := true, archiveCreate := some [0], hashFileOk := true
      hash := fun _ => "", uploadArchiveOk := true
      uploadMetadataOk := true, uploadChecksumOk := true }
    rfl rfl rfl

/-- C10 is false of the code: the u64 cutoff subtraction
`now - max_age_seconds` wraps when `days_old * 86400` exceeds the current
epoch seconds (release build; a debug build panics at the same spot), so
the cutoff becomes astronomically large and every object under the prefix
is selected for deletion.  Concretely, asking to delete entries older than
1 000 000 days (whose age in seconds, 86 400 000 000, exceeds
`now = 1 760 227 200`) deletes an object modified one second ago. -/
theorem cleanup_underflow_deletes_everything :
    1760227200 < 1000000 * (24 * 60 * 60) ∧
    cleanup_old_cache 1760227200 1000000
      [("mise-cache/tools/node/18.17.0/linux-x86_64/metadata.json",
        1760227199)]
      (fun _ => true) =
      ["mise-cache/tools/node/18.17.0/linux-x86_64/metadata.json"] := by
  constructor
  · decide
  · rfl

theorem sep_split_inj (sep : Char) :
    ∀ (a c b d : List Char), sep ∉ a → sep ∉ c →
      a ++ sep :: b = c ++ sep :: d → a = c ∧ b = d := by
  intro a
  induction a with
  | nil =>
      intro c b d _ hc h
      cases c with
      | nil => exact ⟨rfl, by simpa using h⟩
      | cons x xs =>
          exfalso
          simp only [List.nil_append, List.cons_append, List.cons.injEq] at h
          apply hc
          rw [h.1]
          exact List.mem_cons_self x xs
  | cons x xs ih =>
      intro c b d ha hc h
      cases c with
      | nil =>
          exfalso
          simp only [List.cons_append, List.nil_append, List.cons.injEq] at h
          apply ha
          rw [← h.1]
          exact List.mem_cons_self x xs
      | cons y ys =>
          simp only [List.cons_append, List.cons.injEq] at h
          obtain ⟨hxy, htail⟩ := h
          have ha' : sep ∉ xs := fun hm => ha (List.mem_cons_of_mem _ hm)
          have hc' : sep ∉ ys := fun hm => hc (List.mem_cons_of_mem _ hm)
          obtain ⟨h1, h2⟩ := ih ys b d ha' hc' htail
          exact ⟨by rw [hxy, h1], h2⟩

theorem valid_tool_name_no_slash (t : String)
    (h : is_valid_tool_name t = true) : '/' ∉ t.data := by
  intro hm
  unfold is_valid_tool_name at h
  by_cases hg : t.isEmpty || t.length > 100
  · rw [if_pos hg] at h; simp at h
  · rw [if_neg hg] at h
    exact absurd ((List.all_eq_true.mp h) '/' hm) (by decide)

theorem valid_version_no_slash (v : String)
    (h : is_valid_version v = true) : '/' ∉ v.data := by
  intro hm
  unfold is_valid_version at h
  by_cases hg : v.isEmpty || v.length > 50
  · rw [if_pos hg] at h; simp at h
  · rw [if_neg hg] at h
    exact absurd ((List.all_eq_true.mp h) '/' hm) (by decide)

theorem platform_no_dash (os : TargetOS) :
    '-' ∉ (get_platform os).data := by
  cases os <;> decide

theorem platform_injective (o1 o2 : TargetOS)
    (h : get_platform o1 = get_platform o2) : o1 = o2 := by
  cases o1 <;> cases o2 <;> first | rfl | exact absurd h (by decide)

theorem architecture_injective (a1 a2 : TargetArch)
    (h : get_architecture a1 = get_architecture a2) : a1 = a2 := by
  cases a1 <;> cases a2 <;> first | rfl | exact absurd h (by decide)

theorem get_cache_key_data (pfx t v : String) (os : TargetOS)
    (arch : TargetArch) :
    (get_cache_key pfx t v os arch).data =
      (pfx.data ++ ['/', 't', 'o', 'o', 'l', 's', '/']) ++
        (t.data ++ '/' :: (v.data ++ '/' ::
          ((get_platform os).data ++ '-' ::
            (get_architecture arch).data))) := by
  simp [get_cache_key, String.data_append, List.append_assoc]

/-- C4: for a fixed configured prefix, `get_cache_key` is a pure
deterministic function of `(tool, version, platform, arch)` — equal inputs
give equal keys — and, over valid tool and version strings, injective:
distinct tuples give distinct key strings. -/
theorem cache_key_deterministic_injective (pfx t1 v1 t2 v2 : String)
    (o1 o2 : TargetOS) (a1 a2 : TargetArch)
    (ht1 : is_valid_tool_name t1 = true) (hv1 : is_valid_version v1 = true)
    (ht2 : is_valid_tool_name t2 = true) (hv2 : is_valid_version v2 = true) :
    (t1 = t2 → v1 = v2 → o1 = o2 → a1 = a2 →
      get_cache_key pfx t1 v1 o1 a1 = get_cache_key pfx t2 v2 o2 a2) ∧
    (get_cache_key pfx t1 v1 o1 a1 = get_cache_key pfx t2 v2 o2 a2 →
      t1 = t2 ∧ v1 = v2 ∧ o1 = o2 ∧ a1 = a2) := by
  constructor
  · rintro rfl rfl rfl rfl; rfl
  · intro h
    have hd := congrArg String.data h
    rw [get_cache_key_data, get_cache_key_data] at hd
    have hd2 := List.append_cancel_left hd
    obtain ⟨hteq, hrest⟩ := sep_split_inj '/' _ _ _ _
      (valid_tool_name_no_slash t1 ht1) (valid_tool_name_no_slash t2 ht2) hd2
    obtain ⟨hveq, hrest2⟩ := sep_split_inj '/' _ _ _ _
      (valid_version_no_slash v1 hv1) (valid_version_no_slash v2 hv2) hrest
    obtain ⟨hpeq, haeq⟩ := sep_split_inj '-' _ _ _ _
      (platform_no_dash o1) (platform_no_dash o2) hrest2
    exact ⟨String.ext hteq, String.ext hveq,
      platform_injective o1 o2 (String.ext hpeq),
      architecture_injective a1 a2 (String.ext haeq)⟩

/-- Concrete witness for `cache_key_deterministic_injective`: equal keys
for `node@18.17.0` on linux/x86_64 force equal tuples. -/
theorem cache_key_deterministic_injective_witness :
    ("node" : String) = "node" ∧ ("18.17.0" : String) = "18.17.0" ∧
      TargetOS.linux = TargetOS.linux ∧
      TargetArch.x86_64 = TargetArch.x86_64 :=
  (cache_key_deterministic_injective "mise-cache" "node" "18.17.0" "node"
    "18.17.0" TargetOS.linux TargetOS.linux TargetArch.x86_64
    TargetArch.x86_64 (by decide) (by decide) (by decide) (by decide)).2 rfl

end MiseS3Cache
